import Mathlib

/-!
# Verification of the cinerate API gateway's resilient-proxy pipeline

Shallow embedding of the gateway's proxy pipeline:

* `src/src/utils/circuit-breaker.js` — per-service circuit breaker wrapping a
  bounded retry loop around one outbound HTTP call (the `bail` on 4xx is taken
  directly from the source; the attempt-budget harness of the `async-retry`
  dependency and the breaker state contract of the `opossum` dependency are
  modelled from the spec, §4.1/§4.2, since those libraries are not part of
  this repository).
* `src/src/utils/redis-cache.js` — the Redis-backed response cache: key
  prefixing, value stringification/truthiness handling, pattern invalidation
  (Redis `KEYS` glob restricted to the `*` wildcard, the only one the source
  uses), the `connected` flag and the reconnect-inside-the-breaker behaviour.
* `src/src/controllers/proxy.controller.js` — the current dispatcher
  (`ProxyController.proxyRequest`).
* the legacy inline dispatcher of the historical `index.js` variant
  (`src/unnamed/part_005`), which differs in fallback status codes, URL
  construction and TTL/invalidation selection.

JavaScript values flowing through the pipeline are modelled by a small JSON
type; JS truthiness is `jsTruthy`.  The JSON stringify/parse round trip the
cache performs is modelled as the identity on `Json` (it is inverse on every
body shape the claims touch); the one check the source makes on the *stored
string* (its truthiness, i.e. emptiness) is modelled via `storedStr`.
-/

/-- JSON-ish JavaScript values (response bodies, cached values). -/
inductive Json where
  | null
  | bool (b : Bool)
  | num (n : Int)
  | str (s : String)
  | arr (elems : List Json)
  | obj (fields : List (String × Json))

/-- JavaScript truthiness of a value (`if (v)`): `null`, `false`, `0` and the
empty string are falsy; arrays and objects are always truthy. -/
def jsTruthy : Json → Bool
  | .null => false
  | .bool b => b
  | .num n => n != 0
  | .str s => s != ""
  | .arr _ => true
  | .obj _ => true

/-- Field lookup `v.f` on an object, `none` (undefined) otherwise. -/
def jsField (v : Json) (f : String) : Option Json :=
  match v with
  | .obj fields => (fields.find? (fun p => p.1 = f)).map Prod.snd
  | _ => none

/-- Truthiness of `v && v.fallback` (proxy controller line 99 /
part_005 line 265): the guard for the `X-Fallback-Response` header. -/
def respIsFallback (v : Json) : Bool :=
  jsTruthy v && (match jsField v "fallback" with
    | some w => jsTruthy w
    | none => false)

/-- The string the cache stores for a value (redis-cache.js `set`, line 123:
objects are `JSON.stringify`ed, everything else is passed through).  Only its
truthiness (emptiness) is ever inspected by the source (`get`, line 106), so
the serialisation of compound values is a placeholder marker. -/
def storedStr : Json → String
  | .null => "null"
  | .bool b => if b then "true" else "false"
  | .num n => toString n
  | .str s => s
  | .arr _ => "[...]"
  | .obj _ => "{...}"

/-! ## Redis glob matching

`invalidateByPattern` calls Redis `KEYS prefix ++ pattern`.  The source's
patterns only ever use the `*` wildcard, so the matcher below implements
Redis glob semantics restricted to `*` (every other character is literal). -/

/-- Glob matching with `*` as the only wildcard, over character lists. -/
def globMatch : List Char → List Char → Bool
  | [], s => s.isEmpty
  | c :: ps, [] => if c = '*' then globMatch ps [] else false
  | c :: ps, x :: s =>
    if c = '*' then globMatch ps (x :: s) || globMatch (c :: ps) s
    else c = x && globMatch ps s
termination_by p s => p.length + s.length
decreasing_by all_goals simp_arith

/-- String-level glob matching. -/
def globMatchStr (pat s : String) : Bool := globMatch pat.data s.data

/-! ## Cache keys and the store -/

/-- Cache key derivation (proxy.controller.js lines 47–48 and 105–106,
part_005 lines 226–227): `userId:originalUrl` for an authenticated principal,
the bare `originalUrl` otherwise. -/
def cacheKey (uid : String) (url : String) : String :=
  if uid ≠ "anonymous" then uid ++ ":" ++ url else url

/-- The effective principal id: `req.user?.id || 'anonymous'` (a missing
user object and a falsy — empty — id both yield `"anonymous"`). -/
def effUid : Option String → String
  | none => "anonymous"
  | some u => if u = "" then "anonymous" else u

/-- The Redis key prefix configured for the gateway's cache
(redis-cache.js constructor / part_005 line 18: `api-gateway:`). -/
def redisPrefix : String := "api-gateway:"

/-- Full Redis key (`RedisCache.getKey`, line 95–97). -/
def redisKey (key : String) : String := redisPrefix ++ key

/-- One cache entry: full Redis key, stored value, TTL in seconds. -/
structure Entry where
  key : String
  val : Json
  ttl : Nat

/-- Lookup of a Redis key in the store. -/
def storeFind (st : List Entry) (k : String) : Option Json :=
  (st.find? (fun e => e.key = k)).map Entry.val

/-- `set` with TTL: whole-value replacement of the entry for `k`. -/
def storeSet (st : List Entry) (k : String) (v : Json) (ttl : Nat) : List Entry :=
  ⟨k, v, ttl⟩ :: st.filter (fun e => e.key ≠ k)

/-- `RedisCache.invalidateByPattern` body (lines 239–247), with the store
connected: `KEYS prefix ++ pattern` then `DEL`; returns the surviving store
and the number of removed keys. -/
def storeInvalidate (st : List Entry) (pattern : String) : List Entry × Nat :=
  let kept := st.filter (fun e => ¬ globMatchStr (redisPrefix ++ pattern) e.key)
  (kept, st.length - kept.length)

/-- `RedisCache.get` value handling (lines 102–114), with the store
connected: absent key → `null`; a stored string that is falsy (empty) →
`null`; otherwise the parsed value (the JSON round trip is the identity
in this model). -/
def redisGet (st : List Entry) (k : String) : Option Json :=
  match storeFind st k with
  | none => none
  | some v => if storedStr v = "" then none else some v

/-! ## Outbound calls, the retry policy and the circuit breaker

One `fire` invocation consumes a *backend oracle*: `oracle i` is what the
`i`-th (0-based) axios attempt would produce.  axios resolves only for 2xx
statuses (its default `validateStatus`); a non-2xx response rejects with
`err.response` carrying the backend status and body; timeouts and connection
errors reject with no response attached. -/

/-- Outcome of one axios attempt against the backend. -/
inductive Outcome where
  | ok (status : Nat) (data : Json)
  | httpErr (status : Nat) (data : Json)
  | netErr

/-- An error surfaced out of the breaker to the dispatcher's catch branch. -/
inductive Err where
  | httpErr (status : Nat) (data : Json)
  | netErr
  | openCircuit

/-- Result of the retry loop: the resolved response or the last error,
together with the number of backend attempts actually made. -/
inductive RetryResult where
  | success (status : Nat) (data : Json) (calls : Nat)
  | failure (e : Err) (calls : Nat)

/-- Backend attempts made by a retry run. -/
def RetryResult.calls : RetryResult → Nat
  | .success _ _ n => n
  | .failure _ n => n

/-- Add one earlier attempt to a retry result's call count. -/
def RetryResult.bump : RetryResult → RetryResult
  | .success s d n => .success s d (n + 1)
  | .failure e n => .failure e (n + 1)

/-- The retry loop around one axios call (circuit-breaker.js lines 36–56,
part_005 lines 152–169).  The terminal classification is taken from the
source: a rejection carrying a backend status in `[400, 500)` is `bail`ed —
surfaced at once with no further attempt.  The loop harness itself is
modelled from the spec: the `async-retry` dependency is not part of this
repository, and §4.1 specifies at most `budget` total attempts, surfacing
the last error once the budget is exhausted. -/
def retryAux (oracle : Nat → Outcome) : Nat → Nat → RetryResult
  | _, 0 => .failure .netErr 0
  | i, rem + 1 =>
    match oracle i with
    | .ok s d => .success s d 1
    | .httpErr s d =>
      if 400 ≤ s ∧ s < 500 then .failure (.httpErr s d) 1
      else if rem = 0 then .failure (.httpErr s d) 1
      else (retryAux oracle (i + 1) rem).bump
    | .netErr =>
      if rem = 0 then .failure .netErr 1
      else (retryAux oracle (i + 1) rem).bump

/-- Run the retry policy with a total attempt budget. -/
def retryRun (oracle : Nat → Outcome) (budget : Nat) : RetryResult :=
  retryAux oracle 0 budget

/-- Configured attempt budget of the current variant
(circuit-breaker.js line 14: `retries: 5`). -/
def mainRetries : Nat := 5

/-- Configured attempt budget of the legacy variant
(part_005 line 138 and part_006 line 14: `retries: 3`). -/
def legacyRetries : Nat := 3

/-- A backend (or fallback) response as the dispatcher sees it:
`{status, data}`. -/
structure Response where
  status : Nat
  data : Json

/-- Breaker states (spec §4.2). -/
inductive BState where
  | closed
  | opened
  | halfOpen

/-- What one `breaker.fire` invocation did. -/
inductive FOut where
  | resolved (r : Response)
  | rejected (e : Err)

/-- Result of `breaker.fire`: outcome, backend attempts made, and whether
the breaker recorded a failure against its rolling window. -/
structure FireResult where
  out : FOut
  calls : Nat
  recordedFailure : Bool

/-- `breaker.fire(url, method, body)`.  The retry body and the per-service
fallback configuration are from the source; the breaker state contract is
modelled from the spec (§4.2 / §3, the `opossum` dependency is not part of
this repository): OPEN returns the configured fallback without any backend
attempt; CLOSED delegates to the retry policy, rejecting with the surfaced
error (recorded as one failure) when it fails; a HALF_OPEN probe returns
the fallback when it fails.  A breaker constructed without a fallback
rejects with the circuit-open error when OPEN. -/
def fire (st : BState) (fb : Option Response) (oracle : Nat → Outcome)
    (budget : Nat) : FireResult :=
  match st with
  | .opened =>
    match fb with
    | some r => ⟨.resolved r, 0, false⟩
    | none => ⟨.rejected .openCircuit, 0, false⟩
  | .closed =>
    match retryRun oracle budget with
    | .success s d n => ⟨.resolved ⟨s, d⟩, n, false⟩
    | .failure e n => ⟨.rejected e, n, true⟩
  | .halfOpen =>
    match retryRun oracle budget with
    | .success s d n => ⟨.resolved ⟨s, d⟩, n, false⟩
    | .failure _ n =>
      match fb with
      | some r => ⟨.resolved r, n, true⟩
      | none => ⟨.rejected .openCircuit, n, true⟩

/-- Per-service fallback responses of the current variant
(circuit-breaker.js lines 62–83): all three carry status 503. -/
def mainFallback (basePath : String) : Option Response :=
  if basePath = "/api/user" then
    some ⟨503, .obj [("error", .str "User service temporarily unavailable"),
                     ("fallback", .bool true)]⟩
  else if basePath = "/api/review" then
    some ⟨503, .obj [("reviews", .arr []), ("fallback", .bool true),
                     ("message", .str "Review service temporarily unavailable")]⟩
  else if basePath = "/api/watchlist" then
    some ⟨503, .obj [("watchlist", .arr []), ("fallback", .bool true),
                     ("message", .str "Watchlist service temporarily unavailable")]⟩
  else none

/-- Per-service fallback responses of the legacy inline variant
(part_005 lines 176–197): the user fallback carries 503, but the review and
watchlist fallbacks carry status 200. -/
def legacyFallback (basePath : String) : Option Response :=
  if basePath = "/api/user" then
    some ⟨503, .obj [("error", .str "User service temporarily unavailable"),
                     ("fallback", .bool true)]⟩
  else if basePath = "/api/review" then
    some ⟨200, .obj [("reviews", .arr []), ("fallback", .bool true),
                     ("message", .str "Review service temporarily unavailable")]⟩
  else if basePath = "/api/watchlist" then
    some ⟨200, .obj [("watchlist", .arr []), ("fallback", .bool true),
                     ("message", .str "Watchlist service temporarily unavailable")]⟩
  else none

/-! ## The two dispatcher variants -/

/-- Drop the first `n` characters of a string (`String.prototype.substring`
from a start index / removing a leading occurrence). -/
def strDrop (s : String) (n : Nat) : String := ⟨s.data.drop n⟩

/-- `sub` occurs (contiguously) somewhere in the second list. -/
def subListAt : List Char → List Char → Bool
  | sub, [] => sub.isEmpty
  | sub, x :: t => sub.isPrefixOf (x :: t) || subListAt sub t

/-- `s.includes(sub)` — substring containment. -/
def strContains (s sub : String) : Bool := subListAt sub.data s.data

/-- `s.startsWith(p)`. -/
def strStarts (s p : String) : Bool := p.data.isPrefixOf s.data

/-- An incoming request as the dispatchers see it.  `serviceType` is the tag
set by the route layer of the current variant (part_002 `initProxyRoutes`);
the legacy variant ignores it and matches on `originalUrl` itself. -/
structure Request where
  method : String
  path : String
  originalUrl : String
  userId : Option String
  serviceType : Option String
  body : Json

/-- The observable result of one dispatch: HTTP status and body sent to the
client, the `X-Cache` and `X-Fallback-Response` headers, the backend URL that
was handed to `breaker.fire` (if any), the number of backend attempts made,
and the cache store afterwards. -/
structure DispatchResult where
  status : Nat
  body : Json
  xCache : Option String
  xFallback : Bool
  backendUrl : Option String
  backendCalls : Nat
  store : List Entry

/-- serviceType → mounted base path (proxy.controller.js lines 21–29). -/
def basePathOf : Option String → Option String
  | some "user" => some "/api/user"
  | some "review" => some "/api/review"
  | some "watchlist" => some "/api/watchlist"
  | _ => none

/-- The fixed controller not-found response (line 34). -/
def notFoundController (store : List Entry) : DispatchResult :=
  ⟨404, .obj [("error", .str "Service not found")], none, false, none, 0, store⟩

/-- Body of the controller's unclassified-error response (line 180). -/
def internalErrBody : Json := .obj [("error", .str "Internal Gateway Error")]

/-- The GET-path cache probe shared by both dispatcher variants
(proxy.controller.js lines 39–62, part_005 lines 224–241): performed only
for GET with the cache connected; a retrieved value produces a hit only when
truthy. -/
def cacheLookup (req : Request) (connected : Bool) (store : List Entry) :
    Option Json :=
  if req.method = "GET" ∧ connected = true then
    match redisGet store (redisKey (cacheKey (effUid req.userId) req.originalUrl)) with
    | some v => if jsTruthy v then some v else none
    | none => none
  else none

/-- Resource-class TTL of the current variant, decided by `req.serviceType`
(proxy.controller.js lines 109–118). -/
def controllerTTL (serviceType : Option String) : Nat :=
  if serviceType = some "user" then 3600
  else if serviceType = some "review" then 900
  else if serviceType = some "watchlist" then 1200
  else 1800

/-- Controller-side invalidation pattern dispatch (lines 144–150). -/
def controllerInvalidate (uid : String) (serviceType : Option String)
    (store : List Entry) : List Entry :=
  if serviceType = some "user" then (storeInvalidate store (uid ++ ":*")).1
  else if serviceType = some "review" then
    (storeInvalidate store (uid ++ ":*/api/review*")).1
  else if serviceType = some "watchlist" then
    (storeInvalidate store (uid ++ ":*/api/watchlist*")).1
  else store

/-- Store update after a resolved breaker call, current variant
(proxy.controller.js lines 104–167): cache a 2xx GET response under the
resource-class TTL; on a non-GET with the cache connected and an
authenticated principal, run the scoped invalidation — with no condition on
the response status. -/
def controllerStoreAfter (req : Request) (connected : Bool)
    (store : List Entry) (r : Response) : List Entry :=
  let uid := effUid req.userId
  if req.method = "GET" then
    if connected = true ∧ 200 ≤ r.status ∧ r.status < 300 then
      storeSet store (redisKey (cacheKey uid req.originalUrl)) r.data
        (controllerTTL req.serviceType)
    else store
  else
    if connected = true ∧ uid ≠ "anonymous" then
      controllerInvalidate uid req.serviceType store
    else store

/-- `ProxyController.proxyRequest` (proxy.controller.js lines 19–182). -/
def proxyRequest (svcMap : String → Option String) (req : Request)
    (bst : BState) (connected : Bool) (oracle : Nat → Outcome)
    (store : List Entry) : DispatchResult :=
  match basePathOf req.serviceType with
  | none => notFoundController store
  | some bp =>
  match svcMap bp with
  | none => notFoundController store
  | some serviceURL =>
    if req.method = "GET" ∧ connected = true ∧ strContains req.path "/health" then
      -- `this.forwardRequest` (line 43) is not defined anywhere on the
      -- controller class: the call throws a TypeError, which the
      -- surrounding catch maps to status 500 with the generic body
      ⟨500, internalErrBody, none, false, none, 0, store⟩
    else
      match cacheLookup req connected store with
      | some v => ⟨200, v, some "HIT", false, none, 0, store⟩
      | none =>
        let xc := if req.method = "GET" ∧ connected = true then some "MISS" else none
        let suffix :=
          if strDrop req.originalUrl bp.length = "" then "/"
          else strDrop req.originalUrl bp.length
        let url := serviceURL ++ suffix
        let fr := fire bst (mainFallback bp) oracle mainRetries
        match fr.out with
        | .resolved r =>
          ⟨r.status, r.data, xc, respIsFallback r.data, some url, fr.calls,
            controllerStoreAfter req connected store r⟩
        | .rejected (.httpErr s d) =>
          ⟨s, if jsTruthy d then d else internalErrBody, xc, false, some url,
            fr.calls, store⟩
        | .rejected .netErr =>
          ⟨500, internalErrBody, xc, false, some url, fr.calls, store⟩
        | .rejected .openCircuit =>
          ⟨503, .obj [("error", .str "Service temporarily unavailable")], xc,
            false, some url, fr.calls, store⟩

/-- Route matching of the legacy variant (part_005 line 217):
`Object.keys(serviceMap).find(path => originalUrl.startsWith(path))`,
in the insertion order user, watchlist, review. -/
def legacyBasePath (url : String) : Option String :=
  if strStarts url "/api/user" then some "/api/user"
  else if strStarts url "/api/watchlist" then some "/api/watchlist"
  else if strStarts url "/api/review" then some "/api/review"
  else none

/-- Resource-class TTL of the legacy variant, decided by substring tests on
`originalUrl` in the order user, review, watchlist (part_005 lines 275–284). -/
def legacyTTL (url : String) : Nat :=
  if strContains url "/api/user" then 3600
  else if strContains url "/api/review" then 900
  else if strContains url "/api/watchlist" then 1200
  else 1800

/-- Legacy invalidation pattern dispatch, by substring tests on
`originalUrl` (part_005 lines 308–316). -/
def legacyInvalidate (uid : String) (url : String) (store : List Entry) :
    List Entry :=
  if strContains url "/api/user" then (storeInvalidate store (uid ++ ":*")).1
  else if strContains url "/api/review" then
    (storeInvalidate store (uid ++ ":*/api/review*")).1
  else if strContains url "/api/watchlist" then
    (storeInvalidate store (uid ++ ":*/api/watchlist*")).1
  else store

/-- Store update after a resolved breaker call, legacy variant
(part_005 lines 269–333). -/
def legacyStoreAfter (req : Request) (connected : Bool)
    (store : List Entry) (r : Response) : List Entry :=
  let uid := effUid req.userId
  if req.method = "GET" then
    if connected = true ∧ 200 ≤ r.status ∧ r.status < 300 then
      storeSet store (redisKey (cacheKey uid req.originalUrl)) r.data
        (legacyTTL req.originalUrl)
    else store
  else
    if connected = true ∧ uid ≠ "anonymous" then
      legacyInvalidate uid req.originalUrl store
    else store

/-- The legacy inline dispatcher (part_005 lines 216–348).  Note the URL
construction on line 260: `serviceURL + originalUrl.replace(basePath, '')
|| '/'` — `+` binds tighter than `||`, so the `'/'` default applies to the
whole concatenation, not to the stripped remainder. -/
def part005Handle (svcMap : String → Option String) (req : Request)
    (bst : BState) (connected : Bool) (oracle : Nat → Outcome)
    (store : List Entry) : DispatchResult :=
  match legacyBasePath req.originalUrl with
  | none => ⟨404, .str "Service not found", none, false, none, 0, store⟩
  | some bp =>
  match svcMap bp with
  | none => ⟨404, .str "Service not found", none, false, none, 0, store⟩
  | some serviceURL =>
    match cacheLookup req connected store with
    | some v => ⟨200, v, some "HIT", false, none, 0, store⟩
    | none =>
      let xc := if req.method = "GET" ∧ connected = true then some "MISS" else none
      let url :=
        if serviceURL ++ strDrop req.originalUrl bp.length = "" then "/"
        else serviceURL ++ strDrop req.originalUrl bp.length
      let fr := fire bst (legacyFallback bp) oracle legacyRetries
      match fr.out with
      | .resolved r =>
        ⟨r.status, r.data, xc, respIsFallback r.data, some url, fr.calls,
          legacyStoreAfter req connected store r⟩
      | .rejected (.httpErr s d) =>
        ⟨s, if jsTruthy d then d else .str "Internal Gateway Error", xc, false,
          some url, fr.calls, store⟩
      | .rejected .netErr =>
        ⟨500, .str "Internal Gateway Error", xc, false, some url, fr.calls, store⟩
      | .rejected .openCircuit =>
        ⟨503, .str "Service temporarily unavailable", xc, false, some url,
          fr.calls, store⟩

/-! ## The cache component under disconnection (redis-cache.js)

`RedisCache` wraps every operation in its own circuit breaker whose action
first reconnects when the `connected` flag is false (lines 70–75) and whose
fallback resolves to `null` on any failure (lines 89–92).  The breaker
contract is modelled from the spec (§4.2, `opossum` is a dependency, not
repository code) plus the source's registered fallback: an open breaker or a
failed action resolves to `null`.  `connectOk` says whether a reconnect
attempt would succeed; `breakerOpen` whether the cache's own breaker is
open. -/

/-- The cache component's state. -/
structure RCState where
  testMode : Bool
  connected : Bool
  store : List Entry

/-- Return values of cache operations as the caller sees them. -/
inductive RVal where
  | rNull
  | rOK
  | rNum (n : Nat)
  | rVal (v : Json)

/-- `this.circuitBreaker.fire(operation)` for the cache (lines 70–92):
reconnect when disconnected, then run the operation; any failure (including
a failed reconnect) resolves to the registered `null` fallback. -/
def redisFire (breakerOpen connectOk : Bool) (c : RCState)
    (op : RCState → RVal × RCState) : RVal × RCState :=
  if breakerOpen then (.rNull, c)
  else if c.connected then op c
  else if connectOk then op { c with connected := true }
  else (.rNull, c)

/-- `RedisCache.get` (lines 99–115). -/
def rcGet (breakerOpen connectOk : Bool) (c : RCState) (key : String) :
    RVal × RCState :=
  if c.testMode then (.rNull, c)
  else redisFire breakerOpen connectOk c (fun c' =>
    if c'.connected = false then (.rNull, c')
    else match redisGet c'.store (redisKey key) with
      | none => (.rNull, c')
      | some v => (.rVal v, c'))

/-- `RedisCache.set` (lines 117–128). -/
def rcSet (breakerOpen connectOk : Bool) (c : RCState) (key : String)
    (v : Json) (ttl : Nat) : RVal × RCState :=
  if c.testMode then (.rOK, c)
  else redisFire breakerOpen connectOk c (fun c' =>
    if c'.connected = false then (.rOK, c')
    else (.rOK, { c' with store := storeSet c'.store (redisKey key) v ttl }))

/-- `RedisCache.invalidateByPattern` (lines 236–248). -/
def rcInvalidate (breakerOpen connectOk : Bool) (c : RCState)
    (pattern : String) : RVal × RCState :=
  if c.testMode then (.rNum 0, c)
  else redisFire breakerOpen connectOk c (fun c' =>
    if c'.connected = false then (.rNum 0, c')
    else
      let r := storeInvalidate c'.store pattern
      if 0 < r.2 then (.rNum r.2, { c' with store := r.1 })
      else (.rNum 0, c'))

/-! ## Glob-matching lemmas -/

/-- A single `*` matches every string. -/
theorem globMatch_star_all (s : List Char) : globMatch ['*'] s = true := by
  induction s with
  | nil => simp [globMatch]
  | cons x t ih => simp [globMatch, ih]

/-- A wildcard-free literal block at the head of the pattern consumes an
identical block of the subject. -/
theorem globMatch_append_lit (xs : List Char) (hx : '*' ∉ xs)
    (ps s : List Char) : globMatch (xs ++ ps) (xs ++ s) = globMatch ps s := by
  induction xs with
  | nil => rfl
  | cons c t ih =>
    have hc : ¬ c = '*' := fun h => hx (h ▸ List.mem_cons_self c t)
    have ht : '*' ∉ t := fun h => hx (List.mem_cons_of_mem c h)
    simp [globMatch, hc, ih ht]

/-- Unfolding: a leading `*` against the empty subject. -/
theorem globMatch_star_nil (ps : List Char) :
    globMatch ('*' :: ps) [] = globMatch ps [] := by
  rw [globMatch]; simp

/-- Unfolding: a leading `*` against a nonempty subject. -/
theorem globMatch_star_cons (ps : List Char) (x : Char) (s : List Char) :
    globMatch ('*' :: ps) (x :: s) =
      (globMatch ps (x :: s) || globMatch ('*' :: ps) s) := by
  rw [globMatch]; simp

/-- `*` absorbs an arbitrary block in front of a matching remainder. -/
theorem globMatch_star_skip (ps t s : List Char)
    (h : globMatch ps s = true) : globMatch ('*' :: ps) (t ++ s) = true := by
  induction t with
  | nil =>
    rw [List.nil_append]
    cases s with
    | nil => rw [globMatch_star_nil]; exact h
    | cons x s' => rw [globMatch_star_cons, h]; rfl
  | cons y t' ih =>
    rw [List.cons_append, globMatch_star_cons, ih, Bool.or_true]

/-- A match against a pattern with a wildcard-free literal head forces that
head to occur as a prefix of the subject, the rest matching the remainder. -/
theorem globMatch_lit_extract (xs : List Char) (hx : '*' ∉ xs)
    (ps : List Char) : ∀ s : List Char, globMatch (xs ++ ps) s = true →
    xs <+: s ∧ globMatch ps (s.drop xs.length) = true := by
  induction xs with
  | nil => intro s h; simpa using h
  | cons c t ih =>
    intro s h
    have hc : ¬ c = '*' := fun hcc => hx (hcc ▸ List.mem_cons_self c t)
    have ht : '*' ∉ t := fun hm => hx (List.mem_cons_of_mem c hm)
    cases s with
    | nil => simp [globMatch, hc] at h
    | cons x s' =>
      simp only [List.cons_append, globMatch, if_neg hc, Bool.and_eq_true,
        decide_eq_true_eq] at h
      obtain ⟨rfl, h2⟩ := h
      obtain ⟨hpre, hrest⟩ := ih ht s' h2
      exact ⟨List.cons_prefix_cons.mpr ⟨rfl, hpre⟩, by simpa using hrest⟩

/-- Eliminating a leading `*`: some number of subject characters is
skipped. -/
theorem globMatch_star_iff (ps s : List Char) :
    globMatch ('*' :: ps) s = true ↔ ∃ n, globMatch ps (s.drop n) = true := by
  induction s with
  | nil =>
    rw [globMatch_star_nil]
    exact ⟨fun h => ⟨0, h⟩, fun ⟨_, h⟩ => by simpa using h⟩
  | cons x s' ih =>
    rw [globMatch_star_cons]
    simp only [Bool.or_eq_true, ih]
    constructor
    · rintro (h | ⟨n, hn⟩)
      · exact ⟨0, h⟩
      · exact ⟨n + 1, by simpa using hn⟩
    · rintro ⟨n, hn⟩
      cases n with
      | zero => exact Or.inl (by simpa using hn)
      | succ m => exact Or.inr ⟨m, by simpa using hn⟩

/-- `lit*` matches exactly the strings having `lit` as a prefix. -/
theorem globMatch_lit_star_iff (xs s : List Char) (hx : '*' ∉ xs) :
    globMatch (xs ++ ['*']) s = true ↔ xs <+: s := by
  constructor
  · intro h; exact (globMatch_lit_extract xs hx ['*'] s h).1
  · rintro ⟨rest, rfl⟩
    rw [globMatch_append_lit xs hx]
    exact globMatch_star_all rest

/-- `subListAt` finds exactly the positions where the block is a prefix of a
suffix. -/
theorem subListAt_iff (sub s : List Char) :
    subListAt sub s = true ↔ ∃ n, sub <+: s.drop n := by
  induction s with
  | nil =>
    simp [subListAt, List.isEmpty_iff]
  | cons x t ih =>
    simp only [subListAt, Bool.or_eq_true, List.isPrefixOf_iff_prefix, ih]
    constructor
    · rintro (h | ⟨n, hn⟩)
      · exact ⟨0, h⟩
      · exact ⟨n + 1, by simpa using hn⟩
    · rintro ⟨n, hn⟩
      cases n with
      | zero => exact Or.inl (by simpa using hn)
      | succ m => exact Or.inr ⟨m, by simpa using hn⟩

/-- `lit₁*lit₂*` matches exactly the strings that begin with `lit₁` and
contain `lit₂` somewhere after it. -/
theorem globMatch_mid_iff (xs mid s : List Char) (hx : '*' ∉ xs)
    (hm : '*' ∉ mid) :
    globMatch (xs ++ '*' :: (mid ++ ['*'])) s = true ↔
      xs <+: s ∧ subListAt mid (s.drop xs.length) = true := by
  constructor
  · intro h
    obtain ⟨hpre, hrest⟩ := globMatch_lit_extract xs hx _ s h
    refine ⟨hpre, ?_⟩
    obtain ⟨n, hn⟩ := (globMatch_star_iff _ _).mp hrest
    exact (subListAt_iff _ _).mpr ⟨n, (globMatch_lit_star_iff mid _ hm).mp hn⟩
  · rintro ⟨⟨rest, rfl⟩, hsub⟩
    rw [globMatch_append_lit xs hx]
    obtain ⟨n, hn⟩ := (subListAt_iff _ _).mp (by simpa [List.drop_left] using hsub)
    rw [show rest = rest.take n ++ rest.drop n from (List.take_append_drop n rest).symm]
    exact globMatch_star_skip _ _ _
      ((globMatch_lit_star_iff mid _ hm).mpr hn)

/-- Two colon-free blocks followed by a colon and aligned by a prefix
relation are equal: the first colons must line up. -/
theorem colonfree_block_eq (u : List Char) (hu : ':' ∉ u) :
    ∀ v a b : List Char, ':' ∉ v →
    u ++ ':' :: a <+: v ++ ':' :: b → u = v := by
  induction u with
  | nil =>
    intro v a b hv h
    cases v with
    | nil => rfl
    | cons c v' =>
      exfalso
      have := (List.cons_prefix_cons.mp (by simpa using h)).1
      exact hv (this ▸ List.mem_cons_self c v')
  | cons x u' ih =>
    intro v a b hv h
    have hu' : ':' ∉ u' := fun hm => hu (List.mem_cons_of_mem x hm)
    cases v with
    | nil =>
      exfalso
      have := (List.cons_prefix_cons.mp (by simpa using h)).1
      exact hu (this ▸ List.mem_cons_self x u')
    | cons c v' =>
      have hv' : ':' ∉ v' := fun hm => hv (List.mem_cons_of_mem c hm)
      obtain ⟨rfl, htail⟩ := List.cons_prefix_cons.mp (by simpa using h)
      exact congrArg (x :: ·) (ih hu' v' a b hv' htail)

/-! ## Bridging lemmas: string patterns and the store -/

/-- `s.endsWith(suffix)`. -/
def strEnds (s suffix : String) : Bool := suffix.data.isSuffixOf s.data

/-- The user-scoped pattern `uid:*` matches exactly the Redis keys extending
`api-gateway:uid:`. -/
theorem globStr_user_iff (u k : String) (hstar : '*' ∉ u.data) :
    globMatchStr (redisPrefix ++ (u ++ ":*")) k = true ↔
      (redisKey (u ++ ":")).data <+: k.data := by
  have hdata : (redisPrefix ++ (u ++ ":*")).data =
      (redisKey (u ++ ":")).data ++ ['*'] := by
    simp [String.data_append, redisKey]
  have hx : '*' ∉ (redisKey (u ++ ":")).data := by
    simp only [redisKey, String.data_append, List.mem_append]
    rintro (h | h | h)
    · revert h; decide
    · exact hstar h
    · revert h; decide
  rw [globMatchStr, hdata, globMatch_lit_star_iff _ _ hx]

/-- The family-scoped pattern `uid:*fam*` matches exactly the Redis keys
that extend `api-gateway:uid:` and contain `fam` somewhere after it. -/
theorem globStr_fam_iff (u fam k : String) (hstar : '*' ∉ u.data)
    (hfstar : '*' ∉ fam.data) :
    globMatchStr (redisPrefix ++ (u ++ (":*" ++ fam ++ "*"))) k = true ↔
      (redisKey (u ++ ":")).data <+: k.data ∧
      subListAt fam.data (k.data.drop (redisKey (u ++ ":")).data.length) = true := by
  have hdata : (redisPrefix ++ (u ++ (":*" ++ fam ++ "*"))).data =
      (redisKey (u ++ ":")).data ++ '*' :: (fam.data ++ ['*']) := by
    simp [String.data_append, redisKey]
  have hx : '*' ∉ (redisKey (u ++ ":")).data := by
    simp only [redisKey, String.data_append, List.mem_append]
    rintro (h | h | h)
    · revert h; decide
    · exact hstar h
    · revert h; decide
  rw [globMatchStr, hdata, globMatch_mid_iff _ _ _ hx hfstar]

/-- Membership in the store surviving a `uid:*` invalidation. -/
theorem storeInvalidate_user_mem (u : String) (hstar : '*' ∉ u.data)
    (st : List Entry) (e : Entry) :
    e ∈ (storeInvalidate st (u ++ ":*")).1 ↔
      e ∈ st ∧ ¬ (redisKey (u ++ ":")).data <+: e.key.data := by
  simp only [storeInvalidate, List.mem_filter, decide_eq_true_eq]
  rw [globStr_user_iff u e.key hstar]

/-- Membership in the store surviving a `uid:*fam*` invalidation. -/
theorem storeInvalidate_fam_mem (u fam : String) (hstar : '*' ∉ u.data)
    (hfstar : '*' ∉ fam.data) (st : List Entry) (e : Entry) :
    e ∈ (storeInvalidate st (u ++ (":*" ++ fam ++ "*"))).1 ↔
      e ∈ st ∧ ¬ ((redisKey (u ++ ":")).data <+: e.key.data ∧
        subListAt fam.data
          (e.key.data.drop (redisKey (u ++ ":")).data.length) = true) := by
  simp only [storeInvalidate, List.mem_filter, decide_eq_true_eq]
  rw [globStr_fam_iff u fam e.key hstar hfstar]

/-- A key of the shape `api-gateway:v:…` (v colon-free) falls under the
`u:`-scoped patterns only for `v = u` (u colon-free). -/
theorem key_scope_disjoint (u v url : String) (hcu : ':' ∉ u.data)
    (hcv : ':' ∉ v.data) (hvu : v ≠ u)
    (h : (redisKey (u ++ ":")).data <+: (redisKey (v ++ ":" ++ url)).data) :
    False := by
  apply hvu
  have h' : u.data ++ ':' :: [] <+: v.data ++ ':' :: url.data := by
    have := (List.prefix_append_right_inj redisPrefix.data).mp
      (by simpa [redisKey, String.data_append, List.append_assoc] using h)
    simpa using this
  exact (String.ext (colonfree_block_eq u.data hcu v.data [] url.data hcv h')).symm

/-! ## The route layer of the current variant (part_002 `initProxyRoutes`)

Express mounts `router.use('/api/user', …)` etc., which match when the
request path equals the mount path or continues it at a `/` boundary, and a
final `router.use('/api', …)` answering 404 for any other API path. -/

/-- Which serviceType the route layer assigns to a path. -/
def routeServiceType (path : String) : Option String :=
  if path = "/api/user" ∨ strStarts path "/api/user/" = true then some "user"
  else if path = "/api/review" ∨ strStarts path "/api/review/" = true then
    some "review"
  else if path = "/api/watchlist" ∨ strStarts path "/api/watchlist/" = true then
    some "watchlist"
  else none

/-- The mounted proxy router: tag the request and run the controller, or
answer the fixed 404 on the `/api` fallback route; `none` when the path is
not an API path at all (handled elsewhere, out of scope). -/
def gatewayApi (svcMap : String → Option String) (req : Request)
    (bst : BState) (connected : Bool) (oracle : Nat → Outcome)
    (store : List Entry) : Option DispatchResult :=
  match routeServiceType req.path with
  | some t =>
    some (proxyRequest svcMap { req with serviceType := some t } bst connected
      oracle store)
  | none =>
    if req.path = "/api" ∨ strStarts req.path "/api/" = true then
      some ⟨404, .obj [("error", .str "Service not found")], none, false, none,
        0, store⟩
    else none

/-! ## Retry-loop lemmas -/

/-- Bumping adds one call. -/
theorem RetryResult.calls_bump (r : RetryResult) : r.bump.calls = r.calls + 1 := by
  cases r <;> rfl

/-- The retry loop never makes more attempts than its budget. -/
theorem retryAux_calls_le (oracle : Nat → Outcome) :
    ∀ rem i, (retryAux oracle i rem).calls ≤ rem := by
  intro rem
  induction rem with
  | zero => intro i; simp [retryAux, RetryResult.calls]
  | succ m ih =>
    intro i
    cases h : oracle i with
    | ok s d => simp [retryAux, h, RetryResult.calls]
    | httpErr s d =>
      simp only [retryAux, h]
      split
      · simp [RetryResult.calls]
      · split
        · simp [RetryResult.calls]
        · rw [RetryResult.calls_bump]
          exact Nat.succ_le_succ (ih (i + 1))
    | netErr =>
      simp only [retryAux, h]
      split
      · simp [RetryResult.calls]
      · rw [RetryResult.calls_bump]
        exact Nat.succ_le_succ (ih (i + 1))

/-- With every attempt failing with a network error, the loop exhausts its
budget and surfaces the last error. -/
theorem retryAux_exhaust (oracle : Nat → Outcome) :
    ∀ rem i, (∀ j, j < rem → oracle (i + j) = .netErr) →
    retryAux oracle i rem = .failure .netErr rem := by
  intro rem
  induction rem with
  | zero => intro i _; rfl
  | succ m ih =>
    intro i h
    have h0 : oracle i = .netErr := by simpa using h 0 (Nat.succ_pos m)
    rcases Nat.eq_zero_or_pos m with hm | hm
    · subst hm; simp [retryAux, h0]
    · have hm' : ¬ m = 0 := Nat.pos_iff_ne_zero.mp hm
      have := ih (i + 1) (fun j hj => by
        have := h (j + 1) (Nat.succ_lt_succ hj)
        simpa [Nat.add_assoc, Nat.add_comm 1 j] using this)
      simp [retryAux, h0, hm', this, RetryResult.bump]

/-- A first attempt rejected with a backend 4xx is bailed: one attempt,
error surfaced unchanged. -/
theorem retryRun_bail (oracle : Nat → Outcome) (s : Nat) (d : Json)
    (budget : Nat) (h0 : oracle 0 = .httpErr s d) (h4 : 400 ≤ s)
    (h5 : s < 500) (hb : 0 < budget) :
    retryRun oracle budget = .failure (.httpErr s d) 1 := by
  rcases budget with _ | b
  · exact absurd hb (by simp)
  · simp [retryRun, retryAux, h0, h4, h5]

/-- A first successful attempt resolves at once with one call. -/
theorem retryRun_first_ok (oracle : Nat → Outcome) (s : Nat) (d : Json)
    (budget : Nat) (h0 : oracle 0 = .ok s d) (hb : 0 < budget) :
    retryRun oracle budget = .success s d 1 := by
  rcases budget with _ | b
  · exact absurd hb (by simp)
  · simp [retryRun, retryAux, h0]

/-- A non-GET request never consults the cache. -/
theorem cacheLookup_nonGet (req : Request) (connected : Bool)
    (store : List Entry) (hm : req.method ≠ "GET") :
    cacheLookup req connected store = none := by
  simp [cacheLookup, hm]

/-- A disconnected cache never produces a hit. -/
theorem cacheLookup_disconnected (req : Request) (store : List Entry) :
    cacheLookup req false store = none := by
  simp [cacheLookup]

/-! ## Claims -/

/-- C2 counterexample: a first-attempt backend 404 during a HALF_OPEN probe
is bailed — exactly one backend call — but the failed probe resolves to the
service's 503 fallback, so the gateway answers 503, not the original 404. -/
theorem gateway_C2_cex :
    (proxyRequest (fun _ => some "http://user-service")
      ⟨"GET", "/api/user/2", "/api/user/2", none, some "user", .null⟩ .halfOpen
      true (fun _ => .httpErr 404 (.obj [("error", .str "no such user")]))
      []).status = 503 ∧
    (proxyRequest (fun _ => some "http://user-service")
      ⟨"GET", "/api/user/2", "/api/user/2", none, some "user", .null⟩ .halfOpen
      true (fun _ => .httpErr 404 (.obj [("error", .str "no such user")]))
      []).backendCalls = 1 ∧
    (503 : Nat) ≠ 404 :=
  ⟨rfl, rfl, by decide⟩

/-- C2 amended: a first attempt rejected with a backend status in [400,500)
is bailed — exactly one backend call in every breaker state that attempts
the backend, and none at all when OPEN.  The original backend status (and
body, when truthy) reaches the client when the breaker is CLOSED; when the
breaker is HALF_OPEN the bailed 4xx counts as the failed probe and the
gateway instead returns the service's fallback (status 503 in the current
variant). -/
theorem gateway_C2_amended
    (svcMap : String → Option String) (req : Request) (connected : Bool)
    (oracle : Nat → Outcome) (store : List Entry) (bp svcURL : String)
    (s : Nat) (d : Json) (budget : Nat) (fb : Response)
    (h0 : oracle 0 = .httpErr s d) (h4 : 400 ≤ s) (h5 : s < 500)
    (hb : 0 < budget)
    (hbp : basePathOf req.serviceType = some bp)
    (hsvc : svcMap bp = some svcURL)
    (hfb : mainFallback bp = some fb)
    (hnh : ¬ (req.method = "GET" ∧ connected = true ∧
      strContains req.path "/health" = true))
    (hmiss : cacheLookup req connected store = none)
    (hd : jsTruthy d = true) :
    retryRun oracle budget = .failure (.httpErr s d) 1 ∧
    (proxyRequest svcMap req .closed connected oracle store).backendCalls = 1 ∧
    (proxyRequest svcMap req .closed connected oracle store).status = s ∧
    (proxyRequest svcMap req .closed connected oracle store).body = d ∧
    (proxyRequest svcMap req .closed connected oracle store).store = store ∧
    (proxyRequest svcMap req .halfOpen connected oracle store).backendCalls
      = 1 ∧
    (proxyRequest svcMap req .halfOpen connected oracle store).status = 503 ∧
    (proxyRequest svcMap req .halfOpen connected oracle store).body = fb.data ∧
    (proxyRequest svcMap req .opened connected oracle store).backendCalls
      = 0 := by
  have hrr5 : retryRun oracle mainRetries = .failure (.httpErr s d) 1 :=
    retryRun_bail oracle s d mainRetries h0 h4 h5 (by decide)
  have hst : fb.status = 503 := by
    unfold mainFallback at hfb
    split_ifs at hfb <;> exact (Option.some.inj hfb) ▸ rfl
  have hfire : fire .closed (mainFallback bp) oracle mainRetries =
      ⟨.rejected (.httpErr s d), 1, true⟩ := by
    simp [fire, hrr5]
  have hfireH : fire .halfOpen (mainFallback bp) oracle mainRetries =
      ⟨.resolved fb, 1, true⟩ := by
    rw [hfb]; simp [fire, hrr5]
  have hfireO : fire .opened (mainFallback bp) oracle mainRetries =
      ⟨.resolved fb, 0, false⟩ := by
    rw [hfb]; rfl
  refine ⟨retryRun_bail oracle s d budget h0 h4 h5 hb, ?_, ?_, ?_, ?_, ?_, ?_,
    ?_, ?_⟩ <;>
    simp [proxyRequest, hbp, hsvc, hnh, hmiss, hfire, hfireH, hfireO, hd, hst]

/-- C2 amended witness: a backend 404 on the first attempt is not retried;
with the breaker CLOSED the gateway answers 404 with the backend body, with
the breaker HALF_OPEN it answers 503 with the fallback body, and an OPEN
breaker never calls the backend. -/
theorem gateway_C2_amended_witness :
    retryRun (fun _ => .httpErr 404 (.obj [("error", .str "no such user")])) 5 =
      .failure (.httpErr 404 (.obj [("error", .str "no such user")])) 1 ∧
    (proxyRequest (fun _ => some "http://user-service")
      ⟨"GET", "/api/user/2", "/api/user/2", none, some "user", .null⟩ .closed
      true (fun _ => .httpErr 404 (.obj [("error", .str "no such user")]))
      []).backendCalls = 1 ∧
    (proxyRequest (fun _ => some "http://user-service")
      ⟨"GET", "/api/user/2", "/api/user/2", none, some "user", .null⟩ .closed
      true (fun _ => .httpErr 404 (.obj [("error", .str "no such user")]))
      []).status = 404 ∧
    (proxyRequest (fun _ => some "http://user-service")
      ⟨"GET", "/api/user/2", "/api/user/2", none, some "user", .null⟩ .closed
      true (fun _ => .httpErr 404 (.obj [("error", .str "no such user")]))
      []).body = .obj [("error", .str "no such user")] ∧
    (proxyRequest (fun _ => some "http://user-service")
      ⟨"GET", "/api/user/2", "/api/user/2", none, some "user", .null⟩ .closed
      true (fun _ => .httpErr 404 (.obj [("error", .str "no such user")]))
      []).store = [] ∧
    (proxyRequest (fun _ => some "http://user-service")
      ⟨"GET", "/api/user/2", "/api/user/2", none, some "user", .null⟩ .halfOpen
      true (fun _ => .httpErr 404 (.obj [("error", .str "no such user")]))
      []).backendCalls = 1 ∧
    (proxyRequest (fun _ => some "http://user-service")
      ⟨"GET", "/api/user/2", "/api/user/2", none, some "user", .null⟩ .halfOpen
      true (fun _ => .httpErr 404 (.obj [("error", .str "no such user")]))
      []).status = 503 ∧
    (proxyRequest (fun _ => some "http://user-service")
      ⟨"GET", "/api/user/2", "/api/user/2", none, some "user", .null⟩ .halfOpen
      true (fun _ => .httpErr 404 (.obj [("error", .str "no such user")]))
      []).body =
      (⟨503, .obj [("error", .str "User service temporarily unavailable"),
        ("fallback", .bool true)]⟩ : Response).data ∧
    (proxyRequest (fun _ => some "http://user-service")
      ⟨"GET", "/api/user/2", "/api/user/2", none, some "user", .null⟩ .opened
      true (fun _ => .httpErr 404 (.obj [("error", .str "no such user")]))
      []).backendCalls = 0 :=
  gateway_C2_amended (fun _ => some "http://user-service")
    ⟨"GET", "/api/user/2", "/api/user/2", none, some "user", .null⟩ true
    (fun _ => .httpErr 404 (.obj [("error", .str "no such user")])) []
    "/api/user" "http://user-service" 404
    (.obj [("error", .str "no such user")]) 5
    ⟨503, .obj [("error", .str "User service temporarily unavailable"),
      ("fallback", .bool true)]⟩
    rfl (by decide) (by decide) (by decide) rfl rfl rfl (by decide) rfl rfl

/-- C4: a request whose path matches no configured route, and a matched
route whose backend base URL is missing, both produce the fixed 404
not-found response, for any method, with zero backend calls, in both
dispatcher variants and at the route layer's `/api` fallback. -/
theorem gateway_C4_unrouted_404
    (svcMap svcMap2 svcMapL : String → Option String)
    (req req2 reqL reqL2 : Request) (bst : BState) (connected : Bool)
    (oracle : Nat → Outcome) (store : List Entry) (bp bpL : String)
    (h1 : routeServiceType req.path = none)
    (h1b : req.path = "/api" ∨ strStarts req.path "/api/" = true)
    (h2 : basePathOf req2.serviceType = some bp) (h2b : svcMap2 bp = none)
    (hL : legacyBasePath reqL.originalUrl = none)
    (hL2 : legacyBasePath reqL2.originalUrl = some bpL)
    (hL2b : svcMapL bpL = none) :
    gatewayApi svcMap req bst connected oracle store =
      some (notFoundController store) ∧
    proxyRequest svcMap2 req2 bst connected oracle store =
      notFoundController store ∧
    part005Handle svcMapL reqL bst connected oracle store =
      ⟨404, .str "Service not found", none, false, none, 0, store⟩ ∧
    part005Handle svcMapL reqL2 bst connected oracle store =
      ⟨404, .str "Service not found", none, false, none, 0, store⟩ := by
  refine ⟨?_, ?_, ?_, ?_⟩
  · simp [gatewayApi, h1, h1b, notFoundController]
  · simp [proxyRequest, h2, h2b]
  · simp [part005Handle, hL]
  · simp [part005Handle, hL2, hL2b]

/-- C4 witness: `/api/unknown` 404s at the route layer; a registry with no
URL for a matched route 404s in both variants. -/
theorem gateway_C4_witness :
    gatewayApi (fun _ => none)
      ⟨"POST", "/api/unknown", "/api/unknown", none, none, .null⟩ .closed true
      (fun _ => .netErr) [] = some (notFoundController []) ∧
    proxyRequest (fun _ => none)
      ⟨"DELETE", "/api/user/1", "/api/user/1", none, some "user", .null⟩
      .closed true (fun _ => .netErr) [] = notFoundController [] ∧
    part005Handle (fun _ => none)
      ⟨"GET", "/api/unknown", "/api/unknown", none, none, .null⟩ .closed true
      (fun _ => .netErr) [] =
      ⟨404, .str "Service not found", none, false, none, 0, []⟩ ∧
    part005Handle (fun _ => none)
      ⟨"PUT", "/api/user/1", "/api/user/1", none, none, .null⟩ .closed true
      (fun _ => .netErr) [] =
      ⟨404, .str "Service not found", none, false, none, 0, []⟩ :=
  gateway_C4_unrouted_404 (fun _ => none) (fun _ => none) (fun _ => none)
    ⟨"POST", "/api/unknown", "/api/unknown", none, none, .null⟩
    ⟨"DELETE", "/api/user/1", "/api/user/1", none, some "user", .null⟩
    ⟨"GET", "/api/unknown", "/api/unknown", none, none, .null⟩
    ⟨"PUT", "/api/user/1", "/api/user/1", none, none, .null⟩
    .closed true (fun _ => .netErr) [] "/api/user" "/api/user"
    (by decide) (Or.inr (by decide)) rfl rfl (by decide) (by decide) rfl

/-- C5: the cache key is `principal:URL` for authenticated principals and
the bare URL for anonymous requests; distinct principals always get
distinct keys for the same URL, and a cache hit reads exactly the entry
stored under the requesting principal's own key. -/
theorem gateway_C5_cache_key_isolation
    (u v url : String) (hu : u ≠ "anonymous") (hv : v ≠ "anonymous")
    (huv : u ≠ v) (req : Request) (connected : Bool) (store : List Entry)
    (w : Json) (hhit : cacheLookup req connected store = some w) :
    cacheKey u url ≠ cacheKey v url ∧
    cacheKey "anonymous" url = url ∧
    storeFind store (redisKey (cacheKey (effUid req.userId) req.originalUrl)) =
      some w := by
  refine ⟨?_, by simp [cacheKey], ?_⟩
  · simp only [cacheKey, if_pos hu, if_pos hv]
    intro h
    apply huv
    have hd := congrArg String.data h
    simp only [String.data_append] at hd
    exact String.ext (List.append_cancel_right (List.append_cancel_right hd))
  · simp only [cacheLookup] at hhit
    split at hhit
    · rcases hg : redisGet store
        (redisKey (cacheKey (effUid req.userId) req.originalUrl)) with _ | v₀
      · rw [hg] at hhit; exact Option.noConfusion hhit
      · rw [hg] at hhit
        dsimp only at hhit
        by_cases ht : jsTruthy v₀ = true
        · rw [if_pos ht] at hhit
          obtain rfl : v₀ = w := Option.some.inj hhit
          simp only [redisGet] at hg
          rcases hf : storeFind store
              (redisKey (cacheKey (effUid req.userId) req.originalUrl))
            with _ | v₁
          · rw [hf] at hg; exact Option.noConfusion hg
          · rw [hf] at hg
            dsimp only at hg
            by_cases hss : storedStr v₁ = ""
            · rw [if_pos hss] at hg; exact Option.noConfusion hg
            · rw [if_neg hss] at hg
              obtain rfl : v₁ = v₀ := Option.some.inj hg
              rfl
        · rw [if_neg ht] at hhit; exact Option.noConfusion hhit
    · exact Option.noConfusion hhit

/-- C5 witness at two concrete principals and a populated store. -/
theorem gateway_C5_witness :
    cacheKey "u1" "/api/user/1" ≠ cacheKey "u2" "/api/user/1" ∧
    cacheKey "anonymous" "/api/user/1" = "/api/user/1" ∧
    storeFind [⟨redisKey "u1:/api/user/1", .str "profile", 3600⟩]
      (redisKey (cacheKey (effUid (some "u1")) "/api/user/1")) =
      some (.str "profile") :=
  gateway_C5_cache_key_isolation "u1" "u2" "/api/user/1" (by decide)
    (by decide) (by decide)
    ⟨"GET", "/api/user/1", "/api/user/1", some "u1", some "user", .null⟩ true
    [⟨redisKey "u1:/api/user/1", .str "profile", 3600⟩] (.str "profile") rfl

/-- C7: the retry loop never exceeds its budget; the configured budgets
(5 current, 3 legacy) lie in [3,5]; an all-failing run exhausts exactly the
budget and surfaces the last error to the breaker as one recorded
failure. -/
theorem gateway_C7_retry_budget (oracle : Nat → Outcome) (budget : Nat)
    (fb : Option Response)
    (hfail : ∀ i, i < mainRetries → oracle i = .netErr) :
    (retryRun oracle budget).calls ≤ budget ∧
    3 ≤ legacyRetries ∧ legacyRetries ≤ 5 ∧ 3 ≤ mainRetries ∧ mainRetries ≤ 5 ∧
    retryRun oracle mainRetries = .failure .netErr mainRetries ∧
    (fire .closed fb oracle mainRetries).calls = mainRetries ∧
    (fire .closed fb oracle mainRetries).recordedFailure = true := by
  have hex : retryRun oracle mainRetries = .failure .netErr mainRetries :=
    retryAux_exhaust oracle mainRetries 0 (fun j hj => by simpa using hfail j hj)
  refine ⟨retryAux_calls_le oracle budget 0, by decide, by decide, by decide,
    by decide, hex, ?_, ?_⟩ <;> simp [fire, hex]

/-- C7 witness: an always-failing backend is attempted exactly 5 times by
the current configuration. -/
theorem gateway_C7_witness :
    (retryRun (fun _ => .netErr) 5).calls ≤ 5 ∧
    3 ≤ legacyRetries ∧ legacyRetries ≤ 5 ∧ 3 ≤ mainRetries ∧ mainRetries ≤ 5 ∧
    retryRun (fun _ => .netErr) mainRetries = .failure .netErr mainRetries ∧
    (fire .closed none (fun _ => .netErr) mainRetries).calls = mainRetries ∧
    (fire .closed none (fun _ => .netErr) mainRetries).recordedFailure = true :=
  gateway_C7_retry_budget (fun _ => .netErr) 5 none (fun _ _ => rfl)

/-- C9: a cached value that is falsy never produces a cache hit — the
lookup reports a miss and the dispatcher issues a (single, here successful)
backend call even though the entry is present in the store. -/
theorem gateway_C9_falsy_never_hits
    (svcMap : String → Option String) (req : Request) (connected : Bool)
    (oracle : Nat → Outcome) (store : List Entry) (bp svcURL : String)
    (v d : Json) (s : Nat)
    (hfalsy : jsTruthy v = false)
    (hstore : storeFind store
      (redisKey (cacheKey (effUid req.userId) req.originalUrl)) = some v)
    (hget : req.method = "GET") (hc : connected = true)
    (hnh : strContains req.path "/health" = false)
    (hbp : basePathOf req.serviceType = some bp)
    (hsvc : svcMap bp = some svcURL)
    (hok : oracle 0 = .ok s d) :
    cacheLookup req connected store = none ∧
    (proxyRequest svcMap req .closed connected oracle store).xCache =
      some "MISS" ∧
    (proxyRequest svcMap req .closed connected oracle store).backendCalls = 1 := by
  subst hc
  have hlk : cacheLookup req true store = none := by
    unfold cacheLookup redisGet
    rw [hstore]
    by_cases hss : storedStr v = ""
    · simp [hss]
    · simp [hss, hfalsy]
  have hfire : fire .closed (mainFallback bp) oracle mainRetries =
      ⟨.resolved ⟨s, d⟩, 1, false⟩ := by
    simp [fire, retryRun_first_ok oracle s d mainRetries hok (by decide)]
  refine ⟨hlk, ?_, ?_⟩ <;>
    simp [proxyRequest, hbp, hsvc, hlk, hfire, hget, hnh]

/-- C9 witness: a cached `0` for the requested URL misses and the backend
is called again. -/
theorem gateway_C9_witness :
    cacheLookup
      ⟨"GET", "/api/user/1", "/api/user/1", some "u1", some "user", .null⟩ true
      [⟨redisKey "u1:/api/user/1", .num 0, 3600⟩] = none ∧
    (proxyRequest (fun _ => some "http://user-service")
      ⟨"GET", "/api/user/1", "/api/user/1", some "u1", some "user", .null⟩
      .closed true (fun _ => .ok 200 (.str "fresh"))
      [⟨redisKey "u1:/api/user/1", .num 0, 3600⟩]).xCache = some "MISS" ∧
    (proxyRequest (fun _ => some "http://user-service")
      ⟨"GET", "/api/user/1", "/api/user/1", some "u1", some "user", .null⟩
      .closed true (fun _ => .ok 200 (.str "fresh"))
      [⟨redisKey "u1:/api/user/1", .num 0, 3600⟩]).backendCalls = 1 :=
  gateway_C9_falsy_never_hits (fun _ => some "http://user-service") _ _ _ _
    "/api/user" "http://user-service" (.num 0) (.str "fresh") 200 rfl rfl rfl
    rfl (by decide) rfl rfl rfl

/-- C8 counterexample: in the legacy dispatcher, a matched request whose
remainder after the prefix is empty is sent to the bare backend base URL —
the `|| '/'` applies to the whole concatenation and never fires — so the
built URL does not end in `/`. -/
theorem gateway_C8_cex :
    strDrop "/api/review" ("/api/review" : String).length = "" ∧
    (part005Handle
      (fun bp => if bp = "/api/review" then some "http://localhost:3002" else none)
      ⟨"GET", "/api/review", "/api/review", none, none, .null⟩ .opened false
      (fun _ => .netErr) []).backendUrl = some "http://localhost:3002" ∧
    strEnds "http://localhost:3002" "/" = false :=
  ⟨rfl, rfl, rfl⟩

/-- C8 amended: with an empty remainder the current dispatcher sends the
backend base URL extended with `/`, while the legacy dispatcher sends the
bare base URL (no trailing slash) whenever the base URL is nonempty. -/
theorem gateway_C8_amended
    (svcMap svcMapL : String → Option String) (req reqL : Request)
    (bst : BState) (connected : Bool) (oracle : Nat → Outcome)
    (store : List Entry) (bp bpL svcURL svcURLL : String)
    (hbp : basePathOf req.serviceType = some bp)
    (hsvc : svcMap bp = some svcURL)
    (hrem : strDrop req.originalUrl bp.length = "")
    (hnh : ¬ (req.method = "GET" ∧ connected = true ∧
      strContains req.path "/health" = true))
    (hmiss : cacheLookup req connected store = none)
    (hbpL : legacyBasePath reqL.originalUrl = some bpL)
    (hsvcL : svcMapL bpL = some svcURLL)
    (hremL : strDrop reqL.originalUrl bpL.length = "")
    (hneL : svcURLL ≠ "")
    (hmissL : cacheLookup reqL connected store = none) :
    (proxyRequest svcMap req bst connected oracle store).backendUrl =
      some (svcURL ++ "/") ∧
    (part005Handle svcMapL reqL bst connected oracle store).backendUrl =
      some svcURLL := by
  constructor
  · simp only [proxyRequest, hbp, hsvc, if_neg hnh, hmiss, hrem]
    cases hfo : (fire bst (mainFallback bp) oracle mainRetries).out with
    | resolved r => simp
    | rejected e => cases e <;> simp
  · simp only [part005Handle, hbpL, hsvcL, hmissL, hremL, String.append_empty,
      if_neg hneL]
    cases hfo : (fire bst (legacyFallback bpL) oracle legacyRetries).out with
    | resolved r => simp
    | rejected e => cases e <;> simp

/-- C8 amended witness: `/api/user` with an empty remainder maps to
`http://user-service/` in the current variant and to the bare
`http://review-service` in the legacy one. -/
theorem gateway_C8_witness :
    (proxyRequest (fun _ => some "http://user-service")
      ⟨"GET", "/api/user", "/api/user", none, some "user", .null⟩ .opened false
      (fun _ => .netErr) []).backendUrl = some ("http://user-service" ++ "/") ∧
    (part005Handle (fun _ => some "http://review-service")
      ⟨"GET", "/api/review", "/api/review", none, none, .null⟩ .opened false
      (fun _ => .netErr) []).backendUrl = some "http://review-service" :=
  gateway_C8_amended (fun _ => some "http://user-service")
    (fun _ => some "http://review-service")
    ⟨"GET", "/api/user", "/api/user", none, some "user", .null⟩
    ⟨"GET", "/api/review", "/api/review", none, none, .null⟩ .opened false
    (fun _ => .netErr) [] "/api/user" "/api/review" "http://user-service"
    "http://review-service" rfl rfl rfl (by decide) rfl rfl rfl rfl
    (by decide) rfl

/-- C1 counterexample: in the legacy variant, a GET dispatched to the review
service while its breaker is OPEN returns the fallback body verbatim with
status 200 — not 503 — and no backend call. -/
theorem gateway_C1_cex :
    (part005Handle
      (fun bp => if bp = "/api/review" then some "http://review-service" else none)
      ⟨"GET", "/api/review/1", "/api/review/1", none, none, .null⟩ .opened
      false (fun _ => .netErr) []).status = 200 ∧
    (part005Handle
      (fun bp => if bp = "/api/review" then some "http://review-service" else none)
      ⟨"GET", "/api/review/1", "/api/review/1", none, none, .null⟩ .opened
      false (fun _ => .netErr) []).backendCalls = 0 ∧
    (part005Handle
      (fun bp => if bp = "/api/review" then some "http://review-service" else none)
      ⟨"GET", "/api/review/1", "/api/review/1", none, none, .null⟩ .opened
      false (fun _ => .netErr) []).body =
      .obj [("reviews", .arr []), ("fallback", .bool true),
            ("message", .str "Review service temporarily unavailable")] ∧
    (200 : Nat) ≠ 503 :=
  ⟨rfl, rfl, rfl, by decide⟩

/-- C1 amended: a request hitting an OPEN breaker (or a HALF_OPEN breaker
whose probe fails) receives the service's static fallback verbatim with the
fallback's own configured status — 503 for every service in the current
variant, while the legacy variant's review/watchlist fallbacks carry 200 —
and an OPEN breaker makes no backend call. -/
theorem gateway_C1_amended
    (svcMap svcMapL : String → Option String) (req reqL : Request)
    (connected connectedL : Bool) (oracle oracleL : Nat → Outcome)
    (store storeL : List Entry) (bp bpL svcURL svcURLL : String)
    (fb fbL : Response) (e : Err) (n : Nat)
    (hbp : basePathOf req.serviceType = some bp)
    (hsvc : svcMap bp = some svcURL)
    (hfb : mainFallback bp = some fb)
    (hnh : ¬ (req.method = "GET" ∧ connected = true ∧
      strContains req.path "/health" = true))
    (hmiss : cacheLookup req connected store = none)
    (hfailRR : retryRun oracle mainRetries = .failure e n)
    (hbpL : legacyBasePath reqL.originalUrl = some bpL)
    (hsvcL : svcMapL bpL = some svcURLL)
    (hfbL : legacyFallback bpL = some fbL)
    (hmissL : cacheLookup reqL connectedL storeL = none) :
    fb.status = 503 ∧
    (proxyRequest svcMap req .opened connected oracle store).status = 503 ∧
    (proxyRequest svcMap req .opened connected oracle store).body = fb.data ∧
    (proxyRequest svcMap req .opened connected oracle store).backendCalls = 0 ∧
    (proxyRequest svcMap req .halfOpen connected oracle store).status = 503 ∧
    (proxyRequest svcMap req .halfOpen connected oracle store).body = fb.data ∧
    (part005Handle svcMapL reqL .opened connectedL oracleL storeL).status =
      fbL.status ∧
    (part005Handle svcMapL reqL .opened connectedL oracleL storeL).body =
      fbL.data ∧
    (part005Handle svcMapL reqL .opened connectedL oracleL storeL).backendCalls
      = 0 := by
  have hst : fb.status = 503 := by
    unfold mainFallback at hfb
    split_ifs at hfb <;> exact (Option.some.inj hfb) ▸ rfl
  have hopen : fire .opened (some fb) oracle mainRetries =
      ⟨.resolved fb, 0, false⟩ := rfl
  have hhalf : fire .halfOpen (some fb) oracle mainRetries =
      ⟨.resolved fb, n, true⟩ := by
    simp [fire, hfailRR]
  have hopenL : fire .opened (some fbL) oracleL legacyRetries =
      ⟨.resolved fbL, 0, false⟩ := rfl
  refine ⟨hst, ?_, ?_, ?_, ?_, ?_, ?_, ?_, ?_⟩ <;>
    simp [proxyRequest, part005Handle, hbp, hsvc, hfb, hnh, hmiss, hopen,
      hhalf, hst, hbpL, hsvcL, hfbL, hmissL, hopenL]

/-- C1 amended witness: user-service fallback (503) in the current variant,
watchlist fallback (200) in the legacy one. -/
theorem gateway_C1_witness :
    (⟨503, .obj [("error", .str "User service temporarily unavailable"),
      ("fallback", .bool true)]⟩ : Response).status = 503 ∧
    (proxyRequest (fun _ => some "http://user-service")
      ⟨"POST", "/api/user/1", "/api/user/1", some "u1", some "user", .null⟩
      .opened false (fun _ => .netErr) []).status = 503 ∧
    (proxyRequest (fun _ => some "http://user-service")
      ⟨"POST", "/api/user/1", "/api/user/1", some "u1", some "user", .null⟩
      .opened false (fun _ => .netErr) []).body =
      (⟨503, .obj [("error", .str "User service temporarily unavailable"),
        ("fallback", .bool true)]⟩ : Response).data ∧
    (proxyRequest (fun _ => some "http://user-service")
      ⟨"POST", "/api/user/1", "/api/user/1", some "u1", some "user", .null⟩
      .opened false (fun _ => .netErr) []).backendCalls = 0 ∧
    (proxyRequest (fun _ => some "http://user-service")
      ⟨"POST", "/api/user/1", "/api/user/1", some "u1", some "user", .null⟩
      .halfOpen false (fun _ => .netErr) []).status = 503 ∧
    (proxyRequest (fun _ => some "http://user-service")
      ⟨"POST", "/api/user/1", "/api/user/1", some "u1", some "user", .null⟩
      .halfOpen false (fun _ => .netErr) []).body =
      (⟨503, .obj [("error", .str "User service temporarily unavailable"),
        ("fallback", .bool true)]⟩ : Response).data ∧
    (part005Handle (fun _ => some "http://watchlist-service")
      ⟨"GET", "/api/watchlist/9", "/api/watchlist/9", none, none, .null⟩
      .opened false (fun _ => .netErr) []).status =
      (⟨200, .obj [("watchlist", .arr []), ("fallback", .bool true),
        ("message", .str "Watchlist service temporarily unavailable")]⟩ :
        Response).status ∧
    (part005Handle (fun _ => some "http://watchlist-service")
      ⟨"GET", "/api/watchlist/9", "/api/watchlist/9", none, none, .null⟩
      .opened false (fun _ => .netErr) []).body =
      (⟨200, .obj [("watchlist", .arr []), ("fallback", .bool true),
        ("message", .str "Watchlist service temporarily unavailable")]⟩ :
        Response).data ∧
    (part005Handle (fun _ => some "http://watchlist-service")
      ⟨"GET", "/api/watchlist/9", "/api/watchlist/9", none, none, .null⟩
      .opened false (fun _ => .netErr) []).backendCalls = 0 :=
  gateway_C1_amended (fun _ => some "http://user-service")
    (fun _ => some "http://watchlist-service")
    ⟨"POST", "/api/user/1", "/api/user/1", some "u1", some "user", .null⟩
    ⟨"GET", "/api/watchlist/9", "/api/watchlist/9", none, none, .null⟩
    false false (fun _ => .netErr) (fun _ => .netErr) [] [] "/api/user"
    "/api/watchlist" "http://user-service" "http://watchlist-service"
    ⟨503, .obj [("error", .str "User service temporarily unavailable"),
      ("fallback", .bool true)]⟩
    ⟨200, .obj [("watchlist", .arr []), ("fallback", .bool true),
      ("message", .str "Watchlist service temporarily unavailable")]⟩
    .netErr 5 rfl rfl rfl (by decide) rfl rfl rfl rfl rfl rfl

/-- C10: in the legacy variant, a review-service GET answered by the
status-200 fallback while the breaker is OPEN is cached under the full
review TTL (900 s), and an identical later request is served from the cache
as a plain hit — without the `X-Fallback-Response` marker. -/
theorem gateway_C10_fallback_cached
    (svcMap : String → Option String) (u url svcURL : String)
    (oracle oracle2 : Nat → Outcome) (store : List Entry) (bst2 : BState)
    (fb : Response)
    (hu0 : u ≠ "") (hu1 : u ≠ "anonymous")
    (hnu : strStarts url "/api/user" = false)
    (hnw : strStarts url "/api/watchlist" = false)
    (hrv : strStarts url "/api/review" = true)
    (hcr : strContains url "/api/review" = true)
    (hcu : strContains url "/api/user" = false)
    (hsvc : svcMap "/api/review" = some svcURL)
    (hfb : legacyFallback "/api/review" = some fb)
    (hmiss : storeFind store (redisKey (u ++ ":" ++ url)) = none) :
    (part005Handle svcMap ⟨"GET", url, url, some u, none, .null⟩ .opened true
      oracle store).status = 200 ∧
    (part005Handle svcMap ⟨"GET", url, url, some u, none, .null⟩ .opened true
      oracle store).xFallback = true ∧
    (part005Handle svcMap ⟨"GET", url, url, some u, none, .null⟩ .opened true
      oracle store).backendCalls = 0 ∧
    (part005Handle svcMap ⟨"GET", url, url, some u, none, .null⟩ .opened true
      oracle store).store =
      storeSet store (redisKey (u ++ ":" ++ url)) fb.data 900 ∧
    (part005Handle svcMap ⟨"GET", url, url, some u, none, .null⟩ bst2 true
      oracle2 (storeSet store (redisKey (u ++ ":" ++ url)) fb.data 900)).status
      = 200 ∧
    (part005Handle svcMap ⟨"GET", url, url, some u, none, .null⟩ bst2 true
      oracle2 (storeSet store (redisKey (u ++ ":" ++ url)) fb.data 900)).body
      = fb.data ∧
    (part005Handle svcMap ⟨"GET", url, url, some u, none, .null⟩ bst2 true
      oracle2 (storeSet store (redisKey (u ++ ":" ++ url)) fb.data 900)).xCache
      = some "HIT" ∧
    DispatchResult.xFallback (part005Handle svcMap
      ⟨"GET", url, url, some u, none, .null⟩ bst2 true oracle2
      (storeSet store (redisKey (u ++ ":" ++ url)) fb.data 900)) = false ∧
    DispatchResult.backendCalls (part005Handle svcMap
      ⟨"GET", url, url, some u, none, .null⟩ bst2 true oracle2
      (storeSet store (redisKey (u ++ ":" ++ url)) fb.data 900)) = 0 := by
  obtain rfl : (⟨200, .obj [("reviews", .arr []), ("fallback", .bool true),
      ("message", .str "Review service temporarily unavailable")]⟩ :
      Response) = fb := by
    have : legacyFallback "/api/review" = some ⟨200,
        .obj [("reviews", .arr []), ("fallback", .bool true),
          ("message", .str "Review service temporarily unavailable")]⟩ := rfl
    exact Option.some.inj (this.symm.trans hfb)
  have hbpL : legacyBasePath url = some "/api/review" := by
    simp [legacyBasePath, hnu, hnw, hrv]
  have huid : effUid (some u) = u := by simp [effUid, hu0]
  have hck : cacheKey u url = u ++ ":" ++ url := by simp [cacheKey, hu1]
  have hmiss1 : cacheLookup ⟨"GET", url, url, some u, none, .null⟩ true store
      = none := by
    simp only [cacheLookup, redisGet, huid, hck, hmiss]
    simp
  have httl : legacyTTL url = 900 := by simp [legacyTTL, hcu, hcr]
  have hhit2 : cacheLookup ⟨"GET", url, url, some u, none, .null⟩ true
      (storeSet store (redisKey (u ++ ":" ++ url))
        (.obj [("reviews", .arr []), ("fallback", .bool true),
          ("message", .str "Review service temporarily unavailable")]) 900) =
      some (.obj [("reviews", .arr []), ("fallback", .bool true),
        ("message", .str "Review service temporarily unavailable")]) := by
    simp only [cacheLookup, redisGet, huid, hck, storeSet, storeFind]
    simp [List.find?, jsTruthy, storedStr]
  refine ⟨?_, ?_, ?_, ?_, ?_, ?_, ?_, ?_, ?_⟩ <;>
    simp [part005Handle, hbpL, hsvc, hmiss1, hhit2, huid, hck, httl, fire,
      hfb, legacyStoreAfter, respIsFallback, jsField, jsTruthy]

/-- C10 witness at a concrete review URL and principal. -/
theorem gateway_C10_witness :
    (part005Handle (fun _ => some "http://review-service")
      ⟨"GET", "/api/review/movie/7", "/api/review/movie/7", some "u1", none,
        .null⟩ .opened true (fun _ => .netErr) []).status = 200 ∧
    (part005Handle (fun _ => some "http://review-service")
      ⟨"GET", "/api/review/movie/7", "/api/review/movie/7", some "u1", none,
        .null⟩ .opened true (fun _ => .netErr) []).xFallback = true ∧
    (part005Handle (fun _ => some "http://review-service")
      ⟨"GET", "/api/review/movie/7", "/api/review/movie/7", some "u1", none,
        .null⟩ .opened true (fun _ => .netErr) []).backendCalls = 0 ∧
    (part005Handle (fun _ => some "http://review-service")
      ⟨"GET", "/api/review/movie/7", "/api/review/movie/7", some "u1", none,
        .null⟩ .opened true (fun _ => .netErr) []).store =
      storeSet [] (redisKey ("u1" ++ ":" ++ "/api/review/movie/7"))
        (⟨200, .obj [("reviews", .arr []), ("fallback", .bool true),
          ("message", .str "Review service temporarily unavailable")]⟩ :
          Response).data 900 ∧
    (part005Handle (fun _ => some "http://review-service")
      ⟨"GET", "/api/review/movie/7", "/api/review/movie/7", some "u1", none,
        .null⟩ .closed true (fun _ => .netErr)
      (storeSet [] (redisKey ("u1" ++ ":" ++ "/api/review/movie/7"))
        (⟨200, .obj [("reviews", .arr []), ("fallback", .bool true),
          ("message", .str "Review service temporarily unavailable")]⟩ :
          Response).data 900)).status = 200 ∧
    (part005Handle (fun _ => some "http://review-service")
      ⟨"GET", "/api/review/movie/7", "/api/review/movie/7", some "u1", none,
        .null⟩ .closed true (fun _ => .netErr)
      (storeSet [] (redisKey ("u1" ++ ":" ++ "/api/review/movie/7"))
        (⟨200, .obj [("reviews", .arr []), ("fallback", .bool true),
          ("message", .str "Review service temporarily unavailable")]⟩ :
          Response).data 900)).body =
      (⟨200, .obj [("reviews", .arr []), ("fallback", .bool true),
        ("message", .str "Review service temporarily unavailable")]⟩ :
        Response).data ∧
    (part005Handle (fun _ => some "http://review-service")
      ⟨"GET", "/api/review/movie/7", "/api/review/movie/7", some "u1", none,
        .null⟩ .closed true (fun _ => .netErr)
      (storeSet [] (redisKey ("u1" ++ ":" ++ "/api/review/movie/7"))
        (⟨200, .obj [("reviews", .arr []), ("fallback", .bool true),
          ("message", .str "Review service temporarily unavailable")]⟩ :
          Response).data 900)).xCache = some "HIT" ∧
    (part005Handle (fun _ => some "http://review-service")
      ⟨"GET", "/api/review/movie/7", "/api/review/movie/7", some "u1", none,
        .null⟩ .closed true (fun _ => .netErr)
      (storeSet [] (redisKey ("u1" ++ ":" ++ "/api/review/movie/7"))
        (⟨200, .obj [("reviews", .arr []), ("fallback", .bool true),
          ("message", .str "Review service temporarily unavailable")]⟩ :
          Response).data 900)).xFallback = false ∧
    (part005Handle (fun _ => some "http://review-service")
      ⟨"GET", "/api/review/movie/7", "/api/review/movie/7", some "u1", none,
        .null⟩ .closed true (fun _ => .netErr)
      (storeSet [] (redisKey ("u1" ++ ":" ++ "/api/review/movie/7"))
        (⟨200, .obj [("reviews", .arr []), ("fallback", .bool true),
          ("message", .str "Review service temporarily unavailable")]⟩ :
          Response).data 900)).backendCalls = 0 :=
  gateway_C10_fallback_cached (fun _ => some "http://review-service") "u1"
    "/api/review/movie/7" "http://review-service" (fun _ => .netErr)
    (fun _ => .netErr) [] .closed
    ⟨200, .obj [("reviews", .arr []), ("fallback", .bool true),
      ("message", .str "Review service temporarily unavailable")]⟩
    (by decide) (by decide) rfl rfl rfl rfl rfl rfl rfl rfl

/-- C3 counterexample: a POST by an authenticated principal dispatched while
the user-service breaker is OPEN receives the 503 fallback — not a 2xx — yet
the principal's cached entries are still invalidated. -/
theorem gateway_C3_cex :
    (proxyRequest (fun _ => some "http://user-service")
      ⟨"POST", "/api/user/profile", "/api/user/profile", some "u1",
        some "user", .null⟩ .opened true (fun _ => .netErr)
      [⟨redisKey "u1:/api/user/profile", .str "cached", 3600⟩]).status = 503 ∧
    ¬ (200 ≤ 503 ∧ 503 < 300) ∧
    (proxyRequest (fun _ => some "http://user-service")
      ⟨"POST", "/api/user/profile", "/api/user/profile", some "u1",
        some "user", .null⟩ .opened true (fun _ => .netErr)
      [⟨redisKey "u1:/api/user/profile", .str "cached", 3600⟩]).store = [] := by
  have hmatch : globMatchStr (redisPrefix ++ "u1:*")
      (redisKey "u1:/api/user/profile") = true := by
    have h := (globStr_user_iff "u1" (redisKey "u1:/api/user/profile")
      (by decide)).mpr (by decide)
    simpa using h
  refine ⟨rfl, by decide, ?_⟩
  simp [proxyRequest, basePathOf, mainFallback, controllerStoreAfter,
    controllerInvalidate, effUid, storeInvalidate, List.filter, hmatch, fire,
    cacheLookup]

/-- C3 amended: on a mutating (non-GET) request the invalidation runs exactly
when the breaker call resolves (backend 2xx or fallback of any status), the
cache is connected and a principal is authenticated; a user-service mutation
removes exactly the principal's `u:` entries, review/watchlist mutations
remove exactly the principal's entries containing that family's path after
the uid, other principals' entries always survive, and anonymous or
cache-disconnected mutations invalidate nothing. -/
theorem gateway_C3_amended
    (svcMap : String → Option String) (req : Request) (bst : BState)
    (oracle : Nat → Outcome) (store : List Entry)
    (bp svcURL u v url2 : String) (r : Response) (e ev : Entry)
    (hm : req.method ≠ "GET")
    (hbp : basePathOf req.serviceType = some bp)
    (hsvc : svcMap bp = some svcURL)
    (hu : effUid req.userId = u)
    (hstar : '*' ∉ u.data)
    (hres : (fire bst (mainFallback bp) oracle mainRetries).out = .resolved r)
    (hcu : ':' ∉ u.data) (hcv : ':' ∉ v.data) (hvu : v ≠ u)
    (hev : ev ∈ store) (hevkey : ev.key = redisKey (v ++ ":" ++ url2)) :
    (u ≠ "anonymous" →
      (proxyRequest svcMap req bst true oracle store).store =
        controllerInvalidate u req.serviceType store) ∧
    (proxyRequest svcMap req bst true oracle store).status = r.status ∧
    (u = "anonymous" →
      (proxyRequest svcMap req bst true oracle store).store = store) ∧
    (proxyRequest svcMap req bst false oracle store).store = store ∧
    (e ∈ controllerInvalidate u (some "user") store ↔
      e ∈ store ∧ ¬ (redisKey (u ++ ":")).data <+: e.key.data) ∧
    (e ∈ controllerInvalidate u (some "review") store ↔
      e ∈ store ∧ ¬ ((redisKey (u ++ ":")).data <+: e.key.data ∧
        subListAt ("/api/review" : String).data
          (e.key.data.drop (redisKey (u ++ ":")).data.length) = true)) ∧
    (e ∈ controllerInvalidate u (some "watchlist") store ↔
      e ∈ store ∧ ¬ ((redisKey (u ++ ":")).data <+: e.key.data ∧
        subListAt ("/api/watchlist" : String).data
          (e.key.data.drop (redisKey (u ++ ":")).data.length) = true)) ∧
    (ev ∈ controllerInvalidate u (some "user") store ∧
      ev ∈ controllerInvalidate u (some "review") store ∧
      ev ∈ controllerInvalidate u (some "watchlist") store) := by
  have hrev : controllerInvalidate u (some "review") store =
      (storeInvalidate store (u ++ (":*" ++ "/api/review" ++ "*"))).1 := by
    have h1 : (":*/api/review*" : String) = ":*" ++ "/api/review" ++ "*" := rfl
    simp [controllerInvalidate, h1]
  have hwat : controllerInvalidate u (some "watchlist") store =
      (storeInvalidate store (u ++ (":*" ++ "/api/watchlist" ++ "*"))).1 := by
    have h1 : (":*/api/watchlist*" : String) = ":*" ++ "/api/watchlist" ++ "*" :=
      rfl
    simp [controllerInvalidate, h1]
  have husr : controllerInvalidate u (some "user") store =
      (storeInvalidate store (u ++ ":*")).1 := by
    simp [controllerInvalidate]
  have hmemu : e ∈ controllerInvalidate u (some "user") store ↔
      e ∈ store ∧ ¬ (redisKey (u ++ ":")).data <+: e.key.data := by
    rw [husr]; exact storeInvalidate_user_mem u hstar store e
  have hmemr : e ∈ controllerInvalidate u (some "review") store ↔
      e ∈ store ∧ ¬ ((redisKey (u ++ ":")).data <+: e.key.data ∧
        subListAt ("/api/review" : String).data
          (e.key.data.drop (redisKey (u ++ ":")).data.length) = true) := by
    rw [hrev]; exact storeInvalidate_fam_mem u "/api/review" hstar (by decide)
      store e
  have hmemw : e ∈ controllerInvalidate u (some "watchlist") store ↔
      e ∈ store ∧ ¬ ((redisKey (u ++ ":")).data <+: e.key.data ∧
        subListAt ("/api/watchlist" : String).data
          (e.key.data.drop (redisKey (u ++ ":")).data.length) = true) := by
    rw [hwat]; exact storeInvalidate_fam_mem u "/api/watchlist" hstar
      (by decide) store e
  refine ⟨?_, ?_, ?_, ?_, hmemu, hmemr, hmemw, ?_, ?_, ?_⟩
  · intro hua
    simp [proxyRequest, hbp, hsvc, hm, cacheLookup_nonGet _ _ _ hm, hres,
      controllerStoreAfter, hu, hua]
  · simp [proxyRequest, hbp, hsvc, hm, cacheLookup_nonGet _ _ _ hm, hres]
  · intro hua
    simp [proxyRequest, hbp, hsvc, hm, cacheLookup_nonGet _ _ _ hm, hres,
      controllerStoreAfter, hu, hua]
  · simp [proxyRequest, hbp, hsvc, hm, cacheLookup_disconnected, hres,
      controllerStoreAfter]
  · rw [husr]
    exact (storeInvalidate_user_mem u hstar store ev).mpr
      ⟨hev, fun hpre =>
        key_scope_disjoint u v url2 hcu hcv hvu (hevkey ▸ hpre)⟩
  · rw [hrev]
    exact (storeInvalidate_fam_mem u "/api/review" hstar (by decide) store
      ev).mpr ⟨hev, fun hpre =>
        key_scope_disjoint u v url2 hcu hcv hvu (hevkey ▸ hpre.1)⟩
  · rw [hwat]
    exact (storeInvalidate_fam_mem u "/api/watchlist" hstar (by decide) store
      ev).mpr ⟨hev, fun hpre =>
        key_scope_disjoint u v url2 hcu hcv hvu (hevkey ▸ hpre.1)⟩

/-- C3 amended witness: a POST by `u1` against the user service with a 201
backend response; `u2`'s cached entry survives every scope. -/
theorem gateway_C3_witness :
    ("u1" ≠ "anonymous" →
      (proxyRequest (fun _ => some "http://user-service")
        ⟨"POST", "/api/user/1", "/api/user/1", some "u1", some "user", .null⟩
        .closed true (fun _ => .ok 201 (.str "made"))
        [⟨redisKey ("u2" ++ ":" ++ "/api/user/5"), .str "other", 3600⟩]).store =
      controllerInvalidate "u1" (some "user")
        [⟨redisKey ("u2" ++ ":" ++ "/api/user/5"), .str "other", 3600⟩]) ∧
    (proxyRequest (fun _ => some "http://user-service")
      ⟨"POST", "/api/user/1", "/api/user/1", some "u1", some "user", .null⟩
      .closed true (fun _ => .ok 201 (.str "made"))
      [⟨redisKey ("u2" ++ ":" ++ "/api/user/5"), .str "other", 3600⟩]).status =
      (⟨201, .str "made"⟩ : Response).status ∧
    ("u1" = "anonymous" →
      (proxyRequest (fun _ => some "http://user-service")
        ⟨"POST", "/api/user/1", "/api/user/1", some "u1", some "user", .null⟩
        .closed true (fun _ => .ok 201 (.str "made"))
        [⟨redisKey ("u2" ++ ":" ++ "/api/user/5"), .str "other", 3600⟩]).store =
      [⟨redisKey ("u2" ++ ":" ++ "/api/user/5"), .str "other", 3600⟩]) ∧
    (proxyRequest (fun _ => some "http://user-service")
      ⟨"POST", "/api/user/1", "/api/user/1", some "u1", some "user", .null⟩
      .closed false (fun _ => .ok 201 (.str "made"))
      [⟨redisKey ("u2" ++ ":" ++ "/api/user/5"), .str "other", 3600⟩]).store =
      [⟨redisKey ("u2" ++ ":" ++ "/api/user/5"), .str "other", 3600⟩] ∧
    ((⟨redisKey ("u2" ++ ":" ++ "/api/user/5"), .str "other", 3600⟩ : Entry) ∈
      controllerInvalidate "u1" (some "user")
        [⟨redisKey ("u2" ++ ":" ++ "/api/user/5"), .str "other", 3600⟩] ↔
      (⟨redisKey ("u2" ++ ":" ++ "/api/user/5"), .str "other", 3600⟩ : Entry) ∈
        [⟨redisKey ("u2" ++ ":" ++ "/api/user/5"), .str "other", 3600⟩] ∧
      ¬ (redisKey ("u1" ++ ":")).data <+:
        (⟨redisKey ("u2" ++ ":" ++ "/api/user/5"), .str "other", 3600⟩ :
          Entry).key.data) ∧
    ((⟨redisKey ("u2" ++ ":" ++ "/api/user/5"), .str "other", 3600⟩ : Entry) ∈
      controllerInvalidate "u1" (some "review")
        [⟨redisKey ("u2" ++ ":" ++ "/api/user/5"), .str "other", 3600⟩] ↔
      (⟨redisKey ("u2" ++ ":" ++ "/api/user/5"), .str "other", 3600⟩ : Entry) ∈
        [⟨redisKey ("u2" ++ ":" ++ "/api/user/5"), .str "other", 3600⟩] ∧
      ¬ ((redisKey ("u1" ++ ":")).data <+:
          (⟨redisKey ("u2" ++ ":" ++ "/api/user/5"), .str "other", 3600⟩ :
            Entry).key.data ∧
        subListAt ("/api/review" : String).data
          ((⟨redisKey ("u2" ++ ":" ++ "/api/user/5"), .str "other", 3600⟩ :
            Entry).key.data.drop (redisKey ("u1" ++ ":")).data.length) =
          true)) ∧
    ((⟨redisKey ("u2" ++ ":" ++ "/api/user/5"), .str "other", 3600⟩ : Entry) ∈
      controllerInvalidate "u1" (some "watchlist")
        [⟨redisKey ("u2" ++ ":" ++ "/api/user/5"), .str "other", 3600⟩] ↔
      (⟨redisKey ("u2" ++ ":" ++ "/api/user/5"), .str "other", 3600⟩ : Entry) ∈
        [⟨redisKey ("u2" ++ ":" ++ "/api/user/5"), .str "other", 3600⟩] ∧
      ¬ ((redisKey ("u1" ++ ":")).data <+:
          (⟨redisKey ("u2" ++ ":" ++ "/api/user/5"), .str "other", 3600⟩ :
            Entry).key.data ∧
        subListAt ("/api/watchlist" : String).data
          ((⟨redisKey ("u2" ++ ":" ++ "/api/user/5"), .str "other", 3600⟩ :
            Entry).key.data.drop (redisKey ("u1" ++ ":")).data.length) =
          true)) ∧
    ((⟨redisKey ("u2" ++ ":" ++ "/api/user/5"), .str "other", 3600⟩ : Entry) ∈
      controllerInvalidate "u1" (some "user")
        [⟨redisKey ("u2" ++ ":" ++ "/api/user/5"), .str "other", 3600⟩] ∧
      (⟨redisKey ("u2" ++ ":" ++ "/api/user/5"), .str "other", 3600⟩ : Entry) ∈
        controllerInvalidate "u1" (some "review")
          [⟨redisKey ("u2" ++ ":" ++ "/api/user/5"), .str "other", 3600⟩] ∧
      (⟨redisKey ("u2" ++ ":" ++ "/api/user/5"), .str "other", 3600⟩ : Entry) ∈
        controllerInvalidate "u1" (some "watchlist")
          [⟨redisKey ("u2" ++ ":" ++ "/api/user/5"), .str "other", 3600⟩]) :=
  gateway_C3_amended (fun _ => some "http://user-service")
    ⟨"POST", "/api/user/1", "/api/user/1", some "u1", some "user", .null⟩
    .closed (fun _ => .ok 201 (.str "made"))
    [⟨redisKey ("u2" ++ ":" ++ "/api/user/5"), .str "other", 3600⟩]
    "/api/user" "http://user-service" "u1" "u2" "/api/user/5"
    ⟨201, .str "made"⟩
    ⟨redisKey ("u2" ++ ":" ++ "/api/user/5"), .str "other", 3600⟩
    ⟨redisKey ("u2" ++ ":" ++ "/api/user/5"), .str "other", 3600⟩
    (by decide) rfl rfl rfl (by decide) rfl (by decide) (by decide)
    (by decide) (List.mem_cons_self _ _) rfl

/-- C6 counterexample: with the `connected` flag false, `RedisCache.get`
first reconnects — and, when the store is reachable again, returns the
present value rather than absent; when the reconnect fails,
`invalidateByPattern` resolves to the `null` fallback, not to a removed
count of 0. -/
theorem gateway_C6_cex :
    (rcGet false true ⟨false, false, [⟨redisKey "k1", .str "hello", 60⟩]⟩
      "k1").1 = RVal.rVal (.str "hello") ∧
    RVal.rVal (.str "hello") ≠ RVal.rNull ∧
    (rcInvalidate false false
      ⟨false, false, [⟨redisKey "k1", .str "hello", 60⟩]⟩ "*").1 =
      RVal.rNull ∧
    RVal.rNull ≠ RVal.rNum 0 :=
  ⟨rfl, fun h => RVal.noConfusion h, rfl, fun h => RVal.noConfusion h⟩

/-- C6 amended: the pipeline guards every cache operation with the
`connected` flag — when it is false the dispatcher touches no cache state,
sets no cache header, and produces a response independent of the store, so
no request fails because of the cache; the component's own operations,
invoked while disconnected, first attempt a reconnect and — when it fails —
all three resolve to the `null` fallback with the store unchanged. -/
theorem gateway_C6_amended
    (svcMap : String → Option String) (req : Request) (bst : BState)
    (oracle : Nat → Outcome) (store store2 : List Entry) (c : RCState)
    (k pat : String) (v : Json) (ttl : Nat)
    (hcm : c.testMode = false) (hcc : c.connected = false) :
    (proxyRequest svcMap req bst false oracle store).store = store ∧
    (proxyRequest svcMap req bst false oracle store).xCache = none ∧
    (proxyRequest svcMap req bst false oracle store).status =
      (proxyRequest svcMap req bst false oracle store2).status ∧
    (proxyRequest svcMap req bst false oracle store).body =
      (proxyRequest svcMap req bst false oracle store2).body ∧
    rcGet false false c k = (.rNull, c) ∧
    rcSet false false c k v ttl = (.rNull, c) ∧
    rcInvalidate false false c pat = (.rNull, c) := by
  have key : ∀ st : List Entry, proxyRequest svcMap req bst false oracle st =
      { proxyRequest svcMap req bst false oracle [] with store := st } := by
    intro st
    cases hbp : basePathOf req.serviceType with
    | none => simp [proxyRequest, hbp, notFoundController]
    | some bp =>
      cases hsv : svcMap bp with
      | none => simp [proxyRequest, hbp, hsv, notFoundController]
      | some url =>
        simp only [proxyRequest, hbp, hsv, cacheLookup_disconnected]
        cases hfo : (fire bst (mainFallback bp) oracle mainRetries).out with
        | resolved r => simp [controllerStoreAfter]
        | rejected e => cases e <;> simp
  have hxc : ∀ st : List Entry,
      (proxyRequest svcMap req bst false oracle st).xCache = none := by
    intro st
    cases hbp : basePathOf req.serviceType with
    | none => simp [proxyRequest, hbp, notFoundController]
    | some bp =>
      cases hsv : svcMap bp with
      | none => simp [proxyRequest, hbp, hsv, notFoundController]
      | some url =>
        simp only [proxyRequest, hbp, hsv, cacheLookup_disconnected]
        cases hfo : (fire bst (mainFallback bp) oracle mainRetries).out with
        | resolved r => simp
        | rejected e => cases e <;> simp
  refine ⟨?_, ?_, ?_, ?_, ?_, ?_, ?_⟩
  · rw [key store]
  · exact hxc store
  · rw [key store, key store2]
  · rw [key store, key store2]
  · simp [rcGet, redisFire, hcm, hcc]
  · simp [rcSet, redisFire, hcm, hcc]
  · simp [rcInvalidate, redisFire, hcm, hcc]

/-- C6 amended witness at a concrete disconnected state and request. -/
theorem gateway_C6_witness :
    (proxyRequest (fun _ => some "http://user-service")
      ⟨"GET", "/api/user/1", "/api/user/1", some "u1", some "user", .null⟩
      .closed false (fun _ => .netErr)
      [⟨redisKey "u1:/api/user/1", .str "cached", 60⟩]).store =
      [⟨redisKey "u1:/api/user/1", .str "cached", 60⟩] ∧
    (proxyRequest (fun _ => some "http://user-service")
      ⟨"GET", "/api/user/1", "/api/user/1", some "u1", some "user", .null⟩
      .closed false (fun _ => .netErr)
      [⟨redisKey "u1:/api/user/1", .str "cached", 60⟩]).xCache = none ∧
    (proxyRequest (fun _ => some "http://user-service")
      ⟨"GET", "/api/user/1", "/api/user/1", some "u1", some "user", .null⟩
      .closed false (fun _ => .netErr)
      [⟨redisKey "u1:/api/user/1", .str "cached", 60⟩]).status =
      (proxyRequest (fun _ => some "http://user-service")
        ⟨"GET", "/api/user/1", "/api/user/1", some "u1", some "user", .null⟩
        .closed false (fun _ => .netErr) []).status ∧
    (proxyRequest (fun _ => some "http://user-service")
      ⟨"GET", "/api/user/1", "/api/user/1", some "u1", some "user", .null⟩
      .closed false (fun _ => .netErr)
      [⟨redisKey "u1:/api/user/1", .str "cached", 60⟩]).body =
      (proxyRequest (fun _ => some "http://user-service")
        ⟨"GET", "/api/user/1", "/api/user/1", some "u1", some "user", .null⟩
        .closed false (fun _ => .netErr) []).body ∧
    rcGet false false ⟨false, false, []⟩ "k1" = (.rNull, ⟨false, false, []⟩) ∧
    rcSet false false ⟨false, false, []⟩ "k1" (.str "x") 60 =
      (.rNull, ⟨false, false, []⟩) ∧
    rcInvalidate false false ⟨false, false, []⟩ "u1:*" =
      (.rNull, ⟨false, false, []⟩) :=
  gateway_C6_amended (fun _ => some "http://user-service")
    ⟨"GET", "/api/user/1", "/api/user/1", some "u1", some "user", .null⟩
    .closed (fun _ => .netErr)
    [⟨redisKey "u1:/api/user/1", .str "cached", 60⟩] []
    ⟨false, false, []⟩ "k1" "u1:*" (.str "x") 60 rfl rfl
